import Mathlib

/-!
Shallow embedding of the client-side data-aggregation and filtering layer of
the restaurant ordering app: the CategoryPage `filteredRestaurants` memo
(distance / price / rating filters), the pagination accumulators of
HomePage and CategoryPage, the multi-page aggregation loops used for search
and filtering, the axios 401 response interceptor, and the cart
quantity-change handlers of MyCartPage and CheckoutPage.

Numbers that are JS floats in the source (star ratings, prices, distances)
are modelled as rationals; JS falsiness of a number is the test `= 0`, and
absent (`undefined`/`null`) values are `Option`.
-/

namespace RestoApp

/-- Geographic coordinate pair: a restaurant's `coordinates` field or the
user's geolocation sample. -/
structure Coordinates where
  lat : ℚ
  long : ℚ
  deriving DecidableEq, Repr

/-- The `priceRange` field of a restaurant. -/
structure PriceRange where
  min : ℚ
  max : ℚ
  deriving DecidableEq, Repr

/-- Restaurant record: the fields of the `Restaurant` type in
`types/index.ts` that the filtering and accumulation code reads. -/
structure Restaurant where
  id : ℕ
  name : String
  star : ℚ
  place : String
  priceRange : PriceRange
  coordinates : Option Coordinates
  deriving DecidableEq, Repr

/-- The CategoryPage slice of the Redux `FilterState`.  An empty
`priceMin`/`priceMax` string is falsy in JS and modelled as `none`; an active
one carries its `parseFloat` value.  `rating` holds the `parseFloat` values
of the selected rating-bucket strings. -/
structure Filters where
  distance : List String
  priceMin : Option ℚ
  priceMax : Option ℚ
  rating : List ℚ
  deriving DecidableEq, Repr

/-- One arm of the `switch (d)` inside the CategoryPage distance filter:
whether a computed distance in kilometers matches a single selected
distance-bucket key.  The source's `default` arm returns `true`. -/
def distBucketMatch (d : String) (dist : ℚ) : Bool :=
  if d = "nearby" then decide (dist ≤ 1)
  else if d = "1km" then decide (dist ≤ 1)
  else if d = "3km" then decide (dist ≤ 3)
  else if d = "5km" then decide (dist ≤ 5)
  else true

/-- Body of the lambda inside `filters.rating.some(...)` of the CategoryPage
rating filter: the `!restaurantRating` falsy guard followed by the
per-bucket star-range checks (`5` means `star >= 5.0`, `4` means
`4.0 <= star < 5.0`, down to `1`). -/
def matchesRatingBucket (rv star : ℚ) : Bool :=
  if star = 0 then false
  else if rv = 5 then decide (star ≥ 5)
  else if rv = 4 then decide (4 ≤ star ∧ star < 5)
  else if rv = 3 then decide (3 ≤ star ∧ star < 4)
  else if rv = 2 then decide (2 ≤ star ∧ star < 3)
  else if rv = 1 then decide (1 ≤ star ∧ star < 2)
  else false

/-- Per-restaurant predicate of the CategoryPage distance-filter block (the
lambda passed to `filtered.filter` when distance buckets are selected and the
user position is known).  `getDist` stands for `getRestaurantDistance` from
`utils/distance`, which is not part of the sources here; per the spec it is
the haversine great-circle distance in kilometers and `none` when it cannot
be computed, so it is kept abstract as a parameter. -/
def distancePass (getDist : Restaurant → Coordinates → Option ℚ)
    (user : Coordinates) (sel : List String) (r : Restaurant) : Bool :=
  match r.coordinates with
  | none => false
  | some c =>
    if c.lat = 0 ∨ c.long = 0 then false
    else
      match getDist r user with
      | none => false
      | some dist => sel.any (fun d => distBucketMatch d dist)

/-- First stage of the CategoryPage `filteredRestaurants` memo: the distance
filter, applied only when at least one distance bucket is selected and the
user's latitude and longitude are truthy (`userLoc = none` models an absent
or falsy geolocation sample). -/
def applyDistanceFilter (getDist : Restaurant → Coordinates → Option ℚ)
    (userLoc : Option Coordinates) (sel : List String)
    (rs : List Restaurant) : List Restaurant :=
  match userLoc with
  | some u =>
    if 0 < sel.length then rs.filter (distancePass getDist u sel) else rs
  | none => rs

/-- Second stage: the price-min filter.  `filters.priceMin` truthy means
`some minPrice`; the source keeps a restaurant when its own
`priceRange.min` is truthy and `>= minPrice`. -/
def applyPriceMinFilter (pm : Option ℚ) (rs : List Restaurant) :
    List Restaurant :=
  match pm with
  | some minPrice =>
    rs.filter (fun r =>
      decide (r.priceRange.min ≠ 0 ∧ r.priceRange.min ≥ minPrice))
  | none => rs

/-- Third stage: the price-max filter, symmetric to the price-min one. -/
def applyPriceMaxFilter (pm : Option ℚ) (rs : List Restaurant) :
    List Restaurant :=
  match pm with
  | some maxPrice =>
    rs.filter (fun r =>
      decide (r.priceRange.max ≠ 0 ∧ r.priceRange.max ≤ maxPrice))
  | none => rs

/-- Fourth stage: the rating filter, applied when at least one rating bucket
is selected. -/
def applyRatingFilter (sel : List ℚ) (rs : List Restaurant) :
    List Restaurant :=
  if 0 < sel.length then
    rs.filter (fun r => sel.any (fun rv => matchesRatingBucket rv r.star))
  else rs

/-- The CategoryPage `filteredRestaurants` memo: distance filter, then price
min, then price max, then rating, exactly as the successive
`filtered = filtered.filter(...)` reassignments of the source. -/
def filteredRestaurants (getDist : Restaurant → Coordinates → Option ℚ)
    (userLoc : Option Coordinates) (fl : Filters)
    (allRestaurants : List Restaurant) : List Restaurant :=
  applyRatingFilter fl.rating
    (applyPriceMaxFilter fl.priceMax
      (applyPriceMinFilter fl.priceMin
        (applyDistanceFilter getDist userLoc fl.distance allRestaurants)))

/-- A restaurant with only the fields that matter for a given scenario:
identifier and star rating, neutral values elsewhere. -/
def mkResto (id : ℕ) (star : ℚ) : Restaurant :=
  ⟨id, "r", star, "p", ⟨10000, 50000⟩, none⟩

/-- The three restaurants of the spec's rating-filter scenario. -/
def ratingScenario : List Restaurant :=
  [mkResto 1 (mkRat 21 5), mkResto 2 5, mkResto 3 (mkRat 39 10)]

/-- Entity 1 of the spec's price-filter scenario: priceRange
{10000, 30000}. -/
def priceEnt1 : Restaurant := ⟨1, "e1", 4, "p", ⟨10000, 30000⟩, none⟩

/-- Entity 2 of the spec's price-filter scenario: priceRange
{25000, 60000}. -/
def priceEnt2 : Restaurant := ⟨2, "e2", 4, "p", ⟨25000, 60000⟩, none⟩

/-- The spec's bucket-radius mapping, stated from the spec's words: "nearby"
and "1km" both mean within 1 km, "3km" within 3 km, "5km" within 5 km. -/
def specBucketRadius (b : String) : ℚ :=
  if b = "nearby" ∨ b = "1km" then 1 else if b = "3km" then 3 else 5

/-- A full page of ten distinct restaurants (ids 1..10). -/
def pageOfTen : List Restaurant :=
  (List.range 10).map (fun i => mkResto (i + 1) 4)

/-- A short page of four further restaurants (ids 11..14). -/
def pageOfFour : List Restaurant :=
  (List.range 4).map (fun i => mkResto (i + 11) 4)

/-- A full page of twelve distinct restaurants (ids 1..12). -/
def pageOfTwelve : List Restaurant :=
  (List.range 12).map (fun i => mkResto (i + 1) 4)

/-! ## Pagination accumulator (HomePage and CategoryPage) -/

/-- The `setAllRestaurants` updater for a subsequent page: collect the
identifiers already present, drop arriving restaurants whose identifier
already exists, and append the remainder in arrival order. -/
def mergePage (prev page : List Restaurant) : List Restaurant :=
  let existingIds := prev.map (fun r => r.id)
  prev ++ page.filter (fun r => ¬ existingIds.contains r.id)

/-- Accumulation over a whole browsing context: the first fetched page
replaces the collection outright (`currentPage === 1` branch), every later
page goes through `mergePage`. -/
def accumulate (pages : List (List Restaurant)) : List Restaurant :=
  match pages with
  | [] => []
  | p :: rest => rest.foldl mergePage p

/-- Pagination state tracked by the pages: the accumulated collection and the
`hasMore` flag. -/
structure PagState where
  allRestaurants : List Restaurant
  hasMore : Bool
  deriving DecidableEq, Repr

/-- The HomePage data-arrival effect at `currentPage = page` for a fetched
page `fetched` (requested page size `limit`, 12 in the source).  The query
reports `hasMore = (fetched.length = limit)`; on a subsequent page the
updater additionally forces `hasMore` to `false` when the page contributes
zero new (non-duplicate) restaurants — that render-phase `setHasMore(false)`
is enqueued after the effect's `setHasMore(restaurantsData.hasMore)` and
therefore wins. -/
def homeProcessPage (limit : ℕ) (st : PagState) (page : ℕ)
    (fetched : List Restaurant) : PagState :=
  if page = 1 then
    { allRestaurants := fetched, hasMore := decide (fetched.length = limit) }
  else
    let merged := mergePage st.allRestaurants fetched
    let newOnes := fetched.filter
      (fun r => ¬ (st.allRestaurants.map (fun s => s.id)).contains r.id)
    { allRestaurants := merged,
      hasMore := if newOnes.length = 0 then false
                 else decide (fetched.length = limit) }

/-- The CategoryPage data-arrival effect in the unfiltered branch (requested
page size `limit`, 10 in the source): same replace/append logic, but
`hasMore` is always the query's `result.length === limit` signal — there is
no zero-new-restaurants override here. -/
def categoryProcessPage (limit : ℕ) (st : PagState) (page : ℕ)
    (fetched : List Restaurant) : PagState :=
  if page = 1 then
    { allRestaurants := fetched, hasMore := decide (fetched.length = limit) }
  else
    { allRestaurants := mergePage st.allRestaurants fetched,
      hasMore := decide (fetched.length = limit) }

/-! ## Multi-page aggregation loops (HomePage search, CategoryPage filters) -/

/-- One fetch attempt: either a page of restaurants or a network/HTTP error. -/
def FetchResult := Except Unit (List Restaurant)

/-- The body of the `for (let page = 1; page <= 5; page++)` aggregation loop
shared by the HomePage search query and the CategoryPage filter query
(`limit = 12` in both).  `fuel` counts the loop iterations still allowed,
`page` is the next page to request, `acc` the restaurants pushed so far and
`req` the pages requested so far.  An empty result or an error stops the
loop; a short page is pushed and then stops it. -/
def aggLoopGo (fetch : ℕ → FetchResult) (limit : ℕ) :
    ℕ → ℕ → List Restaurant → List ℕ → List Restaurant × List ℕ
  | 0, _, acc, req => (acc, req)
  | fuel + 1, page, acc, req =>
    match fetch page with
    | .error _ => (acc, req ++ [page])
    | .ok result =>
      if result.length = 0 then (acc, req ++ [page])
      else if result.length < limit then (acc ++ result, req ++ [page])
      else aggLoopGo fetch limit fuel (page + 1) (acc ++ result) (req ++ [page])

/-- The whole aggregation loop: pages 1 through 5 at page size 12, returning
the accumulated restaurants together with the list of pages requested. -/
def aggLoop (fetch : ℕ → FetchResult) : List Restaurant × List ℕ :=
  aggLoopGo fetch 12 5 1 [] []

/-! ## Axios response interceptor (401 handling) -/

/-- The four credential slots the interceptor may clear: `token` and `user`
in both `localStorage` and `sessionStorage`. -/
structure Storage where
  localToken : Option String
  localUser : Option String
  sessionToken : Option String
  sessionUser : Option String
  deriving DecidableEq, Repr

/-- Whether `p` is a leading segment of `l`. -/
def charsLeadWith (p l : List Char) : Bool :=
  match p, l with
  | [], _ => true
  | _ :: _, [] => false
  | a :: p1, b :: l1 => a = b && charsLeadWith p1 l1

/-- Whether `p` occurs contiguously inside `l` (JS `String.includes`). -/
def charsContain (p l : List Char) : Bool :=
  match l with
  | [] => p.isEmpty
  | _ :: l1 => charsLeadWith p l || charsContain p l1

/-- Whether an optional request URL contains the given pattern
(`error.config?.url?.includes(...)`: an absent URL is falsy). -/
def urlIncludes (url : Option String) (pat : String) : Bool :=
  match url with
  | none => false
  | some u => charsContain pat.toList u.toList

/-- Effect of the axios response-error interceptor on stored credentials for
a response with the given status and request URL: on a 401 it removes
`token` and `user` from both storages when the URL contains `/auth/` or
`/login`, and leaves the storage untouched otherwise (including every
non-401 status). -/
def interceptError (status : Option ℕ) (url : Option String)
    (st : Storage) : Storage :=
  if status = some 401 then
    let isAuthEndpoint := urlIncludes url "/auth/"
    let isLoginEndpoint := urlIncludes url "/login"
    if isAuthEndpoint || isLoginEndpoint then
      { localToken := none, localUser := none,
        sessionToken := none, sessionUser := none }
    else st
  else st

/-! ## Cart quantity-change handlers (MyCartPage, CheckoutPage) -/

/-- Cart item: the fields read by the quantity-change handlers. -/
structure CartItem where
  id : String
  price : ℚ
  quantity : ℤ
  restaurantId : String
  deriving DecidableEq, Repr

/-- Modelled from the spec: the `removeFromCart` reducer of
`features/cart/cartSlice` is not among the sources here; per the spec's cart
management description and the action's name, it removes the cart item with
the given id from the cart. -/
def removeFromCart (itemId : String) (items : List CartItem) : List CartItem :=
  items.filter (fun i => ¬ i.id = itemId)

/-- Modelled from the spec: the `updateQuantity` reducer of
`features/cart/cartSlice` is not among the sources here; per the spec's cart
management description and the action's payload `{ id, quantity }`, it sets
the quantity of the cart item with the given id to the given value. -/
def updateQuantity (itemId : String) (q : ℤ)
    (items : List CartItem) : List CartItem :=
  items.map (fun i => if i.id = itemId then { i with quantity := q } else i)

/-- MyCartPage `handleQuantityChange(itemId, newQuantity)`: remove the item
when the requested quantity is `<= 0`, otherwise set it. -/
def myCartHandleQuantityChange (items : List CartItem) (itemId : String)
    (newQuantity : ℤ) : List CartItem :=
  if newQuantity ≤ 0 then removeFromCart itemId items
  else updateQuantity itemId newQuantity items

/-- CheckoutPage `handleQuantityChange(itemId, change)`: look the item up,
add `change` to its quantity, remove it when the result is `<= 0`, otherwise
set the new quantity; a missing item leaves the cart unchanged. -/
def checkoutHandleQuantityChange (items : List CartItem) (itemId : String)
    (change : ℤ) : List CartItem :=
  match items.find? (fun i => i.id = itemId) with
  | none => items
  | some item =>
    let newQuantity := item.quantity + change
    if newQuantity ≤ 0 then removeFromCart itemId items
    else updateQuantity itemId newQuantity items

/-! ## Helper lemmas -/

lemma matchesRatingBucket_low_iff (N : ℚ) (hN : N ∈ ([1, 2, 3, 4] : List ℚ))
    (star : ℚ) :
    matchesRatingBucket N star = true ↔ N ≤ star ∧ star < N + 1 := by
  fin_cases hN <;> by_cases hs : star = 0 <;>
    norm_num [matchesRatingBucket, hs]

lemma matchesRatingBucket_five_iff (star : ℚ) :
    matchesRatingBucket 5 star = true ↔ 5 ≤ star := by
  by_cases hs : star = 0 <;> norm_num [matchesRatingBucket, hs]

/-- C1: the rating filter matches bucket N (N in 1..4) exactly on star
ratings in [N, N+1), bucket 5 exactly on star ratings >= 5.0, the buckets
never overlap, and on the accumulated list [{id 1, star 4.2},
{id 2, star 5.0}, {id 3, star 3.9}] with rating filter {4} the filtered
result is exactly the id-1 restaurant. -/
theorem rating_buckets_c1 :
    (∀ star : ℚ, ∀ N ∈ ([1, 2, 3, 4] : List ℚ),
      (matchesRatingBucket N star = true ↔ N ≤ star ∧ star < N + 1)) ∧
    (∀ star : ℚ, matchesRatingBucket 5 star = true ↔ 5 ≤ star) ∧
    (∀ star : ℚ, ∀ N ∈ ([1, 2, 3, 4, 5] : List ℚ),
      ∀ M ∈ ([1, 2, 3, 4, 5] : List ℚ), N ≠ M →
      ¬(matchesRatingBucket N star = true ∧ matchesRatingBucket M star = true)) ∧
    filteredRestaurants (fun _ _ => none) none ⟨[], none, none, [4]⟩
      ratingScenario = [mkResto 1 (mkRat 21 5)] := by
  refine ⟨fun star N hN => matchesRatingBucket_low_iff N hN star,
    matchesRatingBucket_five_iff, ?_, by decide⟩
  intro star N hN M hM hne h
  obtain ⟨h1, h2⟩ := h
  by_cases hs : star = 0
  · rw [hs] at h1
    simp [matchesRatingBucket] at h1
  · fin_cases hN <;> fin_cases hM <;>
      first
      | exact hne rfl
      | (norm_num [matchesRatingBucket, hs] at h1 h2
         first
         | linarith [h1.1, h1.2, h2.1, h2.2]
         | linarith [h1, h2.1, h2.2]
         | linarith [h1.1, h1.2, h2])

/-- Witness for `rating_buckets_c1` at the concrete input N = 4,
star = 4.2. -/
theorem rating_buckets_c1_witness :
    (4 : ℚ) ∈ ([1, 2, 3, 4] : List ℚ) ∧
    (matchesRatingBucket 4 (mkRat 21 5) = true ↔
      (4 : ℚ) ≤ mkRat 21 5 ∧ (mkRat 21 5 : ℚ) < 4 + 1) :=
  ⟨by decide, rating_buckets_c1.1 (mkRat 21 5) 4 (by decide)⟩

lemma applyDistanceFilter_subset {getDist userLoc sel rs} {r : Restaurant}
    (h : r ∈ applyDistanceFilter getDist userLoc sel rs) : r ∈ rs := by
  cases userLoc with
  | none => exact h
  | some u =>
    have h2 : r ∈ (if 0 < sel.length then
        rs.filter (distancePass getDist u sel) else rs) := h
    by_cases hsel : 0 < sel.length
    · rw [if_pos hsel] at h2
      exact (List.mem_filter.1 h2).1
    · rw [if_neg hsel] at h2
      exact h2

lemma applyPriceMinFilter_subset {pm rs} {r : Restaurant}
    (h : r ∈ applyPriceMinFilter pm rs) : r ∈ rs := by
  cases pm with
  | none => exact h
  | some v => exact (List.mem_filter.1 h).1

lemma applyPriceMaxFilter_subset {pm rs} {r : Restaurant}
    (h : r ∈ applyPriceMaxFilter pm rs) : r ∈ rs := by
  cases pm with
  | none => exact h
  | some v => exact (List.mem_filter.1 h).1

lemma applyRatingFilter_subset {sel rs} {r : Restaurant}
    (h : r ∈ applyRatingFilter sel rs) : r ∈ rs := by
  unfold applyRatingFilter at h
  split at h
  · exact (List.mem_filter.1 h).1
  · exact h

lemma mem_applyPriceMinFilter_some {v rs} {r : Restaurant}
    (h : r ∈ applyPriceMinFilter (some v) rs) :
    r.priceRange.min ≠ 0 ∧ r.priceRange.min ≥ v := by
  have := (List.mem_filter.1 h).2
  exact decide_eq_true_iff.1 this

lemma mem_applyPriceMaxFilter_some {v rs} {r : Restaurant}
    (h : r ∈ applyPriceMaxFilter (some v) rs) :
    r.priceRange.max ≠ 0 ∧ r.priceRange.max ≤ v := by
  have := (List.mem_filter.1 h).2
  exact decide_eq_true_iff.1 this

/-- C3: with an active minimum-price filter of floor F a restaurant passes
only if its own `priceRange.min >= F`, with an active maximum-price filter
of ceiling C only if its own `priceRange.max <= C`; with min = 20000 and
max = 50000 the entities {10000, 30000} and {25000, 60000} are both
excluded, and every restaurant that passes has own min >= 20000 and
max <= 50000. -/
theorem price_filters_c3 :
    (∀ (getDist : Restaurant → Coordinates → Option ℚ)
      (userLoc : Option Coordinates) (fl : Filters) (rs : List Restaurant)
      (r : Restaurant) (F : ℚ), fl.priceMin = some F →
      r ∈ filteredRestaurants getDist userLoc fl rs → r.priceRange.min ≥ F) ∧
    (∀ (getDist : Restaurant → Coordinates → Option ℚ)
      (userLoc : Option Coordinates) (fl : Filters) (rs : List Restaurant)
      (r : Restaurant) (C : ℚ), fl.priceMax = some C →
      r ∈ filteredRestaurants getDist userLoc fl rs → r.priceRange.max ≤ C) ∧
    filteredRestaurants (fun _ _ => none) none
      ⟨[], some 20000, some 50000, []⟩ [priceEnt1, priceEnt2] = [] ∧
    (∀ (getDist : Restaurant → Coordinates → Option ℚ)
      (userLoc : Option Coordinates) (rs : List Restaurant) (r : Restaurant),
      r ∈ filteredRestaurants getDist userLoc
          ⟨[], some 20000, some 50000, []⟩ rs →
      r.priceRange.min ≥ 20000 ∧ r.priceRange.max ≤ 50000) := by
  have hmin : ∀ (getDist : Restaurant → Coordinates → Option ℚ)
      (userLoc : Option Coordinates) (fl : Filters) (rs : List Restaurant)
      (r : Restaurant) (F : ℚ), fl.priceMin = some F →
      r ∈ filteredRestaurants getDist userLoc fl rs → r.priceRange.min ≥ F := by
    intro gd ul fl rs r F hpm hmem
    unfold filteredRestaurants at hmem
    have h2 := applyPriceMaxFilter_subset (applyRatingFilter_subset hmem)
    rw [hpm] at h2
    exact (mem_applyPriceMinFilter_some h2).2
  have hmax : ∀ (getDist : Restaurant → Coordinates → Option ℚ)
      (userLoc : Option Coordinates) (fl : Filters) (rs : List Restaurant)
      (r : Restaurant) (C : ℚ), fl.priceMax = some C →
      r ∈ filteredRestaurants getDist userLoc fl rs → r.priceRange.max ≤ C := by
    intro gd ul fl rs r C hpm hmem
    unfold filteredRestaurants at hmem
    have h2 := applyRatingFilter_subset hmem
    rw [hpm] at h2
    exact (mem_applyPriceMaxFilter_some h2).2
  refine ⟨hmin, hmax, by decide, ?_⟩
  intro gd ul rs r hmem
  exact ⟨hmin gd ul _ rs r 20000 rfl hmem, hmax gd ul _ rs r 50000 rfl hmem⟩

/-- Witness for `price_filters_c3`: the min-price direction at a concrete
restaurant that passes the concrete filter. -/
theorem price_filters_c3_witness :
    (⟨[], some 20000, some 50000, []⟩ : Filters).priceMin = some 20000 ∧
    (⟨3, "e3", 4, "p", ⟨25000, 40000⟩, none⟩ : Restaurant) ∈
      filteredRestaurants (fun _ _ => none) none
        ⟨[], some 20000, some 50000, []⟩
        [⟨3, "e3", 4, "p", ⟨25000, 40000⟩, none⟩] ∧
    (⟨3, "e3", 4, "p", ⟨25000, 40000⟩, none⟩ : Restaurant).priceRange.min ≥
      20000 :=
  ⟨rfl, by decide,
    price_filters_c3.1 (fun _ _ => none) none
      ⟨[], some 20000, some 50000, []⟩
      [⟨3, "e3", 4, "p", ⟨25000, 40000⟩, none⟩]
      ⟨3, "e3", 4, "p", ⟨25000, 40000⟩, none⟩ 20000 rfl (by decide)⟩

lemma distBucketMatch_valid (b : String)
    (hb : b ∈ (["nearby", "1km", "3km", "5km"] : List String)) (d : ℚ) :
    distBucketMatch b d = decide (d ≤ specBucketRadius b) := by
  fin_cases hb <;> simp [distBucketMatch, specBucketRadius]

/-- C4: for a restaurant with truthy coordinates and a known distance d, the
distance filter matches exactly when d is within the radius of at least one
selected bucket, with "nearby" and "1km" meaning 1 km, "3km" 3 km and "5km"
5 km. -/
theorem distance_buckets_c4 :
    ∀ (getDist : Restaurant → Coordinates → Option ℚ) (u : Coordinates)
      (sel : List String) (r : Restaurant) (c : Coordinates) (d : ℚ),
      r.coordinates = some c → c.lat ≠ 0 → c.long ≠ 0 →
      getDist r u = some d → sel ≠ [] →
      (∀ b ∈ sel, b ∈ (["nearby", "1km", "3km", "5km"] : List String)) →
      (distancePass getDist u sel r = true ↔
        ∃ b ∈ sel, d ≤ specBucketRadius b) := by
  intro gd u sel r c d hc hlat hlong hd hne hval
  unfold distancePass
  rw [hc]
  simp only []
  rw [if_neg (not_or.2 ⟨hlat, hlong⟩), hd]
  simp only []
  rw [List.any_eq_true]
  constructor
  · rintro ⟨b, hb, hmatch⟩
    rw [distBucketMatch_valid b (hval b hb)] at hmatch
    exact ⟨b, hb, decide_eq_true_iff.1 hmatch⟩
  · rintro ⟨b, hb, hle⟩
    refine ⟨b, hb, ?_⟩
    rw [distBucketMatch_valid b (hval b hb)]
    exact decide_eq_true_iff.2 hle

/-- Witness for `distance_buckets_c4` at a concrete restaurant 2 km from the
user with buckets {"1km", "3km"} selected. -/
theorem distance_buckets_c4_witness :
    (distancePass (fun _ _ => some 2) ⟨1, 1⟩ ["1km", "3km"]
        ⟨7, "w", 4, "p", ⟨1, 2⟩, some ⟨3, 4⟩⟩ = true ↔
      ∃ b ∈ (["1km", "3km"] : List String), (2 : ℚ) ≤ specBucketRadius b) :=
  distance_buckets_c4 (fun _ _ => some 2) ⟨1, 1⟩ ["1km", "3km"]
    ⟨7, "w", 4, "p", ⟨1, 2⟩, some ⟨3, 4⟩⟩ ⟨3, 4⟩ 2 rfl (by decide) (by decide)
    rfl (by decide) (by decide)

/-- C7: distance-dependent filtering degrades gracefully.  When the user's
geolocation sample is absent the distance dimension is a pass-through (the
result is the price and rating filters alone), and when the position is
known and a distance bucket is active, an entity without coordinates is
excluded. -/
theorem distance_guard_c7 :
    (∀ (getDist : Restaurant → Coordinates → Option ℚ) (fl : Filters)
      (rs : List Restaurant),
      filteredRestaurants getDist none fl rs =
        applyRatingFilter fl.rating
          (applyPriceMaxFilter fl.priceMax
            (applyPriceMinFilter fl.priceMin rs))) ∧
    (∀ (getDist : Restaurant → Coordinates → Option ℚ) (u : Coordinates)
      (fl : Filters) (rs : List Restaurant) (r : Restaurant),
      0 < fl.distance.length → r.coordinates = none →
      r ∉ filteredRestaurants getDist (some u) fl rs) := by
  refine ⟨fun gd fl rs => rfl, ?_⟩
  intro gd u fl rs r hlen hc hmem
  unfold filteredRestaurants at hmem
  have h3 := applyPriceMinFilter_subset
    (applyPriceMaxFilter_subset (applyRatingFilter_subset hmem))
  have h4 : r ∈ (if 0 < fl.distance.length then
      rs.filter (distancePass gd u fl.distance) else rs) := h3
  rw [if_pos hlen] at h4
  have hpass := (List.mem_filter.1 h4).2
  simp [distancePass, hc] at hpass

/-- Witness for `distance_guard_c7`: a coordinate-less restaurant is not in
the filtered result when a distance bucket is active and the position is
known. -/
theorem distance_guard_c7_witness :
    0 < (["1km"] : List String).length ∧
    (mkResto 9 4).coordinates = none ∧
    mkResto 9 4 ∉
      filteredRestaurants (fun _ _ => some 0) (some ⟨1, 1⟩)
        ⟨["1km"], none, none, []⟩ [mkResto 9 4] :=
  ⟨by decide, rfl,
    distance_guard_c7.2 (fun _ _ => some 0) ⟨1, 1⟩ ⟨["1km"], none, none, []⟩
      [mkResto 9 4] (mkResto 9 4) (by decide) rfl⟩

lemma homeProcessPage_hasMore_succ (limit : ℕ) (st : PagState) (page : ℕ)
    (fetched : List Restaurant) (hp : page ≠ 1) :
    (homeProcessPage limit st page fetched).hasMore =
      (if (fetched.filter (fun r =>
          ¬ (st.allRestaurants.map (fun s => s.id)).contains r.id)).length = 0
       then false else decide (fetched.length = limit)) := by
  unfold homeProcessPage
  rw [if_neg hp]

lemma categoryProcessPage_hasMore (limit : ℕ) (st : PagState) (page : ℕ)
    (fetched : List Restaurant) :
    (categoryProcessPage limit st page fetched).hasMore =
      decide (fetched.length = limit) := by
  unfold categoryProcessPage
  split <;> rfl

/-- C2 (amended): in the HomePage accumulator `hasMore` becomes `false`
exactly when the fetched page is shorter than the requested page size or a
fetch after the first page contributes zero new (non-duplicate)
restaurants; in the CategoryPage accumulator `hasMore` becomes `false`
exactly when the fetched page is shorter than the requested page size — the
zero-new-entities condition is absent there.  The spec's scenario (page 1
with 10 items at limit 10, then page 2 with 4 items) behaves as stated. -/
theorem pagination_exhaustion_c2 :
    (∀ (limit : ℕ) (st : PagState) (page : ℕ) (fetched : List Restaurant),
      fetched.length ≤ limit →
      ((homeProcessPage limit st page fetched).hasMore = false ↔
        (fetched.length < limit ∨ (page ≠ 1 ∧
          fetched.filter (fun r =>
            ¬ (st.allRestaurants.map (fun s => s.id)).contains r.id) = [])))) ∧
    (∀ (limit : ℕ) (st : PagState) (page : ℕ) (fetched : List Restaurant),
      fetched.length ≤ limit →
      ((categoryProcessPage limit st page fetched).hasMore = false ↔
        fetched.length < limit)) ∧
    (categoryProcessPage 10 ⟨[], true⟩ 1 pageOfTen).hasMore = true ∧
    (categoryProcessPage 10 (categoryProcessPage 10 ⟨[], true⟩ 1 pageOfTen) 2
      pageOfFour).hasMore = false := by
  refine ⟨?_, ?_, by decide, by decide⟩
  · intro limit st page fetched hlen
    by_cases hp : page = 1
    · subst hp
      have h1 : (homeProcessPage limit st 1 fetched).hasMore =
          decide (fetched.length = limit) := rfl
      rw [h1, decide_eq_false_iff_not]
      simp only [ne_eq, not_true_eq_false, false_and, or_false]
      omega
    · rw [homeProcessPage_hasMore_succ limit st page fetched hp]
      by_cases hz : (fetched.filter (fun r =>
          ¬ (st.allRestaurants.map (fun s => s.id)).contains r.id)).length = 0
      · rw [if_pos hz]
        simp only [List.length_eq_zero] at hz
        simp only [eq_self_iff_true, true_iff]
        exact Or.inr ⟨hp, hz⟩
      · rw [if_neg hz]
        rw [decide_eq_false_iff_not]
        simp only [List.length_eq_zero] at hz
        constructor
        · intro hne
          exact Or.inl (by omega)
        · rintro (hlt | ⟨_, hfil⟩)
          · omega
          · exact absurd hfil hz
  · intro limit st page fetched hlen
    rw [categoryProcessPage_hasMore, decide_eq_false_iff_not]
    omega

/-- Counterexample to C2 as stated: in the CategoryPage accumulator, a
second full page consisting entirely of duplicates yields zero new entities
after a successful first page, yet `hasMore` stays `true` — the claim
demands `false` there. -/
theorem pagination_exhaustion_c2_counterexample :
    (categoryProcessPage 10 (categoryProcessPage 10 ⟨[], true⟩ 1 pageOfTen) 2
        pageOfTen).hasMore = true ∧
    (2 : ℕ) ≠ 1 ∧
    pageOfTen.filter (fun r =>
      ¬ ((categoryProcessPage 10 ⟨[], true⟩ 1 pageOfTen).allRestaurants.map
          (fun s => s.id)).contains r.id) = [] := by
  decide

/-- Witness for `pagination_exhaustion_c2`: a short second page turns the
HomePage `hasMore` off. -/
theorem pagination_exhaustion_c2_witness :
    pageOfFour.length ≤ 10 ∧
    (homeProcessPage 10 ⟨pageOfTen, true⟩ 2 pageOfFour).hasMore = false :=
  ⟨by decide,
    (pagination_exhaustion_c2.1 10 ⟨pageOfTen, true⟩ 2 pageOfFour
      (by decide)).mpr (by decide)⟩

lemma mergePage_ids_nodup {prev page : List Restaurant}
    (h1 : (prev.map (fun r => r.id)).Nodup)
    (h2 : (page.map (fun r => r.id)).Nodup) :
    ((mergePage prev page).map (fun r => r.id)).Nodup := by
  unfold mergePage
  rw [List.map_append, List.nodup_append]
  refine ⟨h1, ((List.filter_sublist page).map _).nodup h2, ?_⟩
  intro a ha hb
  obtain ⟨r, hr, rfl⟩ := List.mem_map.1 hb
  have hkeep := (List.mem_filter.1 hr).2
  rw [decide_eq_true_iff] at hkeep
  exact hkeep (List.elem_iff.2 ha)

lemma foldl_mergePage_ids_nodup (rest : List (List Restaurant)) :
    ∀ acc : List Restaurant, (acc.map (fun r => r.id)).Nodup →
      (∀ p ∈ rest, (p.map (fun r => r.id)).Nodup) →
      ((rest.foldl mergePage acc).map (fun r => r.id)).Nodup := by
  induction rest with
  | nil => exact fun acc ha _ => ha
  | cons p rest ih =>
    intro acc ha hall
    rw [List.foldl_cons]
    exact ih (mergePage acc p) (mergePage_ids_nodup ha (hall p (by simp)))
      (fun q hq => hall q (by simp [hq]))

/-- C5 (amended): provided each fetched page itself contains no two
entities with the same identifier, the accumulated listing never contains
two entities with the same identifier. -/
theorem accumulator_dedup_c5 :
    ∀ pages : List (List Restaurant),
      (∀ p ∈ pages, (p.map (fun r => r.id)).Nodup) →
      ((accumulate pages).map (fun r => r.id)).Nodup := by
  intro pages hall
  cases pages with
  | nil => simp [accumulate]
  | cons p rest =>
    exact foldl_mergePage_ids_nodup rest p (hall p (by simp))
      (fun q hq => hall q (by simp [hq]))

/-- Counterexample to C5 as stated: a single fetched page that itself
contains the same identifier twice is merged verbatim, so the accumulator
holds two entities with identifier 1. -/
theorem accumulator_dedup_c5_counterexample :
    ¬ ((accumulate [[mkResto 1 4, mkResto 1 4]]).map
        (fun r => r.id)).Nodup := by
  decide

/-- Witness for `accumulator_dedup_c5` on two concrete duplicate-free
pages. -/
theorem accumulator_dedup_c5_witness :
    (∀ p ∈ [[mkResto 1 4], [mkResto 2 4, mkResto 1 4]],
      (p.map (fun r => r.id)).Nodup) ∧
    ((accumulate [[mkResto 1 4], [mkResto 2 4, mkResto 1 4]]).map
      (fun r => r.id)).Nodup :=
  ⟨by decide, accumulator_dedup_c5 _ (by decide)⟩

/-- C6: merging a subsequent page leaves the already-accumulated entities
in place (the first `prev.length` positions are exactly `prev`), and what
follows them is exactly the page's non-duplicate entities in arrival
order. -/
theorem merge_order_c6 :
    ∀ prev page : List Restaurant,
      (mergePage prev page).take prev.length = prev ∧
      (mergePage prev page).drop prev.length =
        page.filter (fun r =>
          ¬ (prev.map (fun s => s.id)).contains r.id) := by
  intro prev page
  exact ⟨List.take_left _ _, List.drop_left _ _⟩

lemma aggLoopGo_reaches_error (fetch : ℕ → FetchResult)
    (pg : ℕ → List Restaurant) :
    ∀ (k fuel page : ℕ) (acc : List Restaurant) (req : List ℕ),
      k < fuel →
      (∀ i, i < k → fetch (page + i) = .ok (pg (page + i)) ∧
        (pg (page + i)).length = 12) →
      fetch (page + k) = .error () →
      aggLoopGo fetch 12 fuel page acc req =
        (acc ++ ((List.range' page k).map pg).flatten,
         req ++ List.range' page (k + 1)) := by
  intro k
  induction k with
  | zero =>
    intro fuel page acc req hfuel hok herr
    cases fuel with
    | zero => omega
    | succ f =>
      rw [Nat.add_zero] at herr
      have hstep : aggLoopGo fetch 12 (f + 1) page acc req =
          (match fetch page with
           | .error _ => (acc, req ++ [page])
           | .ok result =>
             if result.length = 0 then (acc, req ++ [page])
             else if result.length < 12 then (acc ++ result, req ++ [page])
             else aggLoopGo fetch 12 f (page + 1) (acc ++ result)
               (req ++ [page])) := rfl
      rw [hstep, herr]
      simp [List.range'_one]
  | succ k ih =>
    intro fuel page acc req hfuel hok herr
    cases fuel with
    | zero => omega
    | succ f =>
      obtain ⟨hf0, hl0⟩ := hok 0 (by omega)
      rw [Nat.add_zero] at hf0 hl0
      have hstep : aggLoopGo fetch 12 (f + 1) page acc req =
          (match fetch page with
           | .error _ => (acc, req ++ [page])
           | .ok result =>
             if result.length = 0 then (acc, req ++ [page])
             else if result.length < 12 then (acc ++ result, req ++ [page])
             else aggLoopGo fetch 12 f (page + 1) (acc ++ result)
               (req ++ [page])) := rfl
      rw [hstep, hf0]
      simp only [hl0]
      rw [if_neg (by omega), if_neg (by omega)]
      rw [ih f (page + 1) (acc ++ pg page) (req ++ [page]) (by omega)
        (fun i hi => by
          have hsh := hok (i + 1) (by omega)
          rwa [show page + (i + 1) = page + 1 + i by omega] at hsh)
        (by rwa [show page + (k + 1) = page + 1 + k by omega] at herr)]
      have hr1 : List.range' page (k + 1) = page :: List.range' (page + 1) k :=
        rfl
      have hr2 : List.range' page (k + 2) =
          page :: List.range' (page + 1) (k + 1) := rfl
      rw [hr1, hr2]
      simp [List.append_assoc]

/-- C9: when the fetch of page P fails inside the five-page aggregation loop
(pages 1..P-1 having returned full pages of 12), the loop requests exactly
pages 1..P — nothing beyond P and P only once, so no retry — and returns
the restaurants accumulated from pages 1..P-1. -/
theorem aggregation_abort_c9 :
    ∀ (fetch : ℕ → FetchResult) (pg : ℕ → List Restaurant) (P : ℕ),
      1 ≤ P → P ≤ 5 →
      (∀ q, 1 ≤ q → q < P →
        fetch q = .ok (pg q) ∧ (pg q).length = 12) →
      fetch P = .error () →
      aggLoop fetch =
        (((List.range' 1 (P - 1)).map pg).flatten, List.range' 1 P) := by
  intro fetch pg P h1 h5 hok herr
  have hmain := aggLoopGo_reaches_error fetch pg (P - 1) 5 1 [] [] (by omega)
    (fun i hi => hok (1 + i) (by omega) (by omega))
    (by rwa [show 1 + (P - 1) = P by omega])
  unfold aggLoop
  rw [hmain]
  rw [show P - 1 + 1 = P by omega]
  simp

/-- Witness for `aggregation_abort_c9`: page 1 full, page 2 errors. -/
theorem aggregation_abort_c9_witness :
    aggLoop (fun q => if q = 1 then .ok pageOfTwelve else .error ()) =
      (pageOfTwelve, [1, 2]) :=
  aggregation_abort_c9
    (fun q => if q = 1 then .ok pageOfTwelve else .error ())
    (fun _ => pageOfTwelve) 2 (by omega) (by omega)
    (fun q hq1 hq2 => by
      rw [show q = 1 by omega]
      exact ⟨rfl, by decide⟩)
    rfl

/-- C8: a 401 response clears the four stored credential slots exactly when
the request URL contains "/auth/" or "/login", and leaves the storage
unchanged on every other endpoint. -/
theorem interceptor_401_c8 :
    ∀ (url : Option String) (st : Storage),
      ((urlIncludes url "/auth/" = true ∨ urlIncludes url "/login" = true) →
        interceptError (some 401) url st = ⟨none, none, none, none⟩) ∧
      ((urlIncludes url "/auth/" = false ∧ urlIncludes url "/login" = false) →
        interceptError (some 401) url st = st) := by
  intro url st
  constructor
  · rintro (h | h) <;> simp [interceptError, h]
  · rintro ⟨h1, h2⟩
    simp [interceptError, h1, h2]

/-- Witness for `interceptor_401_c8` on a concrete auth URL and a storage
holding a token and user in both slots. -/
theorem interceptor_401_c8_witness :
    urlIncludes (some "/api/auth/login") "/auth/" = true ∧
    interceptError (some 401) (some "/api/auth/login")
      ⟨some "t", some "u", some "t", some "u"⟩ = ⟨none, none, none, none⟩ :=
  ⟨by decide,
    (interceptor_401_c8 (some "/api/auth/login")
      ⟨some "t", some "u", some "t", some "u"⟩).1 (Or.inl (by decide))⟩

lemma removeFromCart_pos {items : List CartItem} {itemId : String}
    (h : ∀ i ∈ items, 0 < i.quantity) :
    ∀ i ∈ removeFromCart itemId items, 0 < i.quantity :=
  fun i hi => h i (List.mem_filter.1 hi).1

lemma updateQuantity_pos {items : List CartItem} {itemId : String} {q : ℤ}
    (hq : 0 < q) (h : ∀ i ∈ items, 0 < i.quantity) :
    ∀ i ∈ updateQuantity itemId q items, 0 < i.quantity := by
  intro i hi
  obtain ⟨j, hj, rfl⟩ := List.mem_map.1 hi
  by_cases hid : j.id = itemId
  · rw [if_pos hid]
    exact hq
  · rw [if_neg hid]
    exact h j hj

/-- C10: starting from a cart whose items all have positive quantity, the
MyCartPage and CheckoutPage quantity-change handlers never leave an item
with quantity <= 0: a requested or computed quantity of zero or less
removes the item, anything else sets it. -/
theorem cart_quantity_c10 :
    ∀ (items : List CartItem) (itemId : String) (q change : ℤ),
      (∀ i ∈ items, 0 < i.quantity) →
      (∀ i ∈ myCartHandleQuantityChange items itemId q, 0 < i.quantity) ∧
      (∀ i ∈ checkoutHandleQuantityChange items itemId change,
        0 < i.quantity) := by
  intro items itemId q change hall
  constructor
  · unfold myCartHandleQuantityChange
    by_cases hq : q ≤ 0
    · rw [if_pos hq]
      exact removeFromCart_pos hall
    · rw [if_neg hq]
      exact updateQuantity_pos (by omega) hall
  · unfold checkoutHandleQuantityChange
    cases hfind : items.find? (fun i => i.id = itemId) with
    | none =>
      simp only [hfind]
      exact hall
    | some item =>
      simp only [hfind]
      by_cases hq2 : item.quantity + change ≤ 0
      · rw [if_pos hq2]
        exact removeFromCart_pos hall
      · rw [if_neg hq2]
        exact updateQuantity_pos (by omega) hall

/-- Witness for `cart_quantity_c10` on a one-item cart: a decrement from
quantity 1 removes the item on both pages. -/
theorem cart_quantity_c10_witness :
    (∀ i ∈ [(⟨"a", 10, 1, "r"⟩ : CartItem)], 0 < i.quantity) ∧
    (∀ i ∈ myCartHandleQuantityChange [⟨"a", 10, 1, "r"⟩] "a" 0,
      0 < i.quantity) ∧
    (∀ i ∈ checkoutHandleQuantityChange [⟨"a", 10, 1, "r"⟩] "a" (-1),
      0 < i.quantity) :=
  ⟨by decide, (cart_quantity_c10 [⟨"a", 10, 1, "r"⟩] "a" 0 (-1) (by decide)).1,
    (cart_quantity_c10 [⟨"a", 10, 1, "r"⟩] "a" 0 (-1) (by decide)).2⟩

end RestoApp
